import Mathlib

/-!
Verification of the mymoney repository's ledger-aggregation and
budget-tracking logic.  The definitions below are a shallow embedding of
the Python source: monetary amounts (Python floats) are modelled as
rationals, the SQL queries of `backend/crud.py` as list folds over an
in-memory store, and the Streamlit budget page / card components of
`frontend/` as pure functions on the values they render.
-/

namespace MyMoney

/-- Timestamp as stored on a transaction; only the calendar fields matter
to the engine, since period bucketing uses strftime on year and month. -/
structure DateTime where
  year : Nat
  month : Nat
  day : Nat
  deriving DecidableEq, Repr

/-- Zero-pad a numeral to two digits, as strftime's percent-m does. -/
def pad2 (n : Nat) : String :=
  if n < 10 then "0" ++ toString n else toString n

/-- Zero-pad a numeral to four digits, as strftime's percent-Y does. -/
def pad4 (n : Nat) : String :=
  if n < 10 then "000" ++ toString n
  else if n < 100 then "00" ++ toString n
  else if n < 1000 then "0" ++ toString n
  else toString n

/-- Embedding of the SQLite expression strftime with format
"percent-Y dash percent-m" applied to a transaction date: the derived
YYYY-MM period key used by `crud.get_monthly_summary` and
`crud.get_category_breakdown`. -/
def strftimeYM (d : DateTime) : String :=
  pad4 d.year ++ "-" ++ pad2 d.month

/-- Row of the transactions table (backend/models.py, class Transaction). -/
structure Transaction where
  id : Nat
  amount : ℚ
  category : String
  description : Option String
  transaction_type : String
  date : DateTime
  user_id : Nat
  deriving DecidableEq, Repr

/-- Row of the budgets table (backend/models.py, class Budget). -/
structure Budget where
  id : Nat
  category : String
  amount : ℚ
  month : String
  user_id : Nat
  deriving DecidableEq, Repr

/-- Sum of the amount column over a list of rows, the embedding of the
SQL aggregate func.sum(Transaction.amount). -/
def sumAmounts (ts : List Transaction) : ℚ :=
  (ts.map (fun t => t.amount)).sum

/-- Rows of `db` matching the WHERE clause of `crud.get_monthly_summary`:
user_id equals `uid` and the strftime-derived period key equals `month`. -/
def monthlyRows (db : List Transaction) (uid : Nat) (month : String) :
    List Transaction :=
  db.filter (fun t => t.user_id == uid && strftimeYM t.date == month)

/-- Embedding of `crud.get_monthly_summary`: the GROUP BY
transaction_type query produces one row per transaction type that occurs
among the matching transactions, and the Python dict comprehension turns
it into a map from type to summed amount.  We model the dict as a lookup
function: the key `ttype` is present (some) exactly when at least one
matching row has that type, and its value is the sum of their amounts. -/
def get_monthly_summary (db : List Transaction) (uid : Nat) (month : String)
    (ttype : String) : Option ℚ :=
  let rows := (monthlyRows db uid month).filter
    (fun t => t.transaction_type == ttype)
  if rows.isEmpty then none else some (sumAmounts rows)

/-- Response shape of the /analytics/monthly-summary endpoint
(backend/api/analytics.py, get_monthly_summary). -/
structure MonthlySummaryResponse where
  month : String
  income : ℚ
  expense : ℚ
  balance : ℚ
  deriving DecidableEq, Repr

/-- Embedding of the /analytics/monthly-summary handler: it reads the
income and expense entries of the crud summary dict with default 0 and
returns balance as income minus expense. -/
def monthly_summary_endpoint (db : List Transaction) (uid : Nat)
    (month : String) : MonthlySummaryResponse :=
  let income := (get_monthly_summary db uid month "income").getD 0
  let expense := (get_monthly_summary db uid month "expense").getD 0
  { month := month, income := income, expense := expense,
    balance := income - expense }

/-- Rows of `db` matching the WHERE clause of
`crud.get_category_breakdown`: user_id equals `uid`, transaction_type is
expense, and, when a month is given, the derived period key equals it. -/
def breakdownRows (db : List Transaction) (uid : Nat)
    (month : Option String) : List Transaction :=
  db.filter (fun t => t.user_id == uid && t.transaction_type == "expense"
    && (match month with
        | none => true
        | some m => strftimeYM t.date == m))

/-- Distinct elements of a list in first-occurrence order; the group
keys produced by the SQL GROUP BY. -/
def firstOccurrences : List String → List String
  | [] => []
  | c :: rest => c :: firstOccurrences (rest.filter (fun x => !(x == c)))
termination_by l => l.length
decreasing_by
  simp only [List.length_cons]
  exact Nat.lt_succ_of_le (List.length_filter_le _ _)

/-- Embedding of `crud.get_category_breakdown`: group the matching
expense rows by category and sum amounts, one output pair per distinct
category (first-occurrence order stands in for the SQL group order). -/
def get_category_breakdown (db : List Transaction) (uid : Nat)
    (month : Option String) : List (String × ℚ) :=
  let rows := breakdownRows db uid month
  let cats := firstOccurrences (rows.map (fun t => t.category))
  cats.map (fun c =>
    (c, sumAmounts (rows.filter (fun t => t.category == c))))

/-- Embedding of `crud.get_transactions`: filter the store to the
owner's rows, then apply OFFSET skip and LIMIT limit.  The call sites
use the Python defaults skip equal 0 and limit equal 100. -/
def get_transactions (db : List Transaction) (uid : Nat)
    (skip : Nat := 0) (limit : Nat := 100) : List Transaction :=
  (((db.filter (fun t => t.user_id == uid)).drop skip).take limit)

/-- Update payload accepted by the PUT transactions endpoint
(backend/schemas.py, class TransactionUpdate): every field optional;
a `none` models a field absent from the payload (pydantic's
exclude_unset), and for description the inner option is the stored
nullable value. -/
structure TransactionUpdate where
  amount : Option ℚ
  category : Option String
  description : Option (Option String)
  transaction_type : Option String
  date : Option DateTime
  deriving DecidableEq, Repr

/-- Effect of the setattr loop of `crud.update_transaction` on the
matched row: each field present in the payload overwrites the stored
field, absent fields are untouched; id and user_id are not fields of
TransactionUpdate, so the loop never assigns them. -/
def applyUpdate (u : TransactionUpdate) (t : Transaction) : Transaction :=
  { t with
    amount := u.amount.getD t.amount
    category := u.category.getD t.category
    description := u.description.getD t.description
    transaction_type := u.transaction_type.getD t.transaction_type
    date := u.date.getD t.date }

/-- Embedding of `crud.update_transaction`: the query filters on both
the transaction id and the calling user's id, `.first()` takes the
first such row, and only that row is mutated; when no row matches the
store is left as it is. -/
def update_transaction (db : List Transaction) (tid : Nat)
    (u : TransactionUpdate) (uid : Nat) : List Transaction :=
  match db with
  | [] => []
  | t :: rest =>
      if t.id == tid && t.user_id == uid then applyUpdate u t :: rest
      else t :: update_transaction rest tid u uid

/-- Validator of backend/schemas.py, TransactionBase.validate_type: the
only constraint schema validation places on a transaction payload
besides field types — the amount field in particular carries no bound. -/
def validate_type (v : String) : Bool :=
  v == "income" || v == "expense"

/-- Payload produced by the frontend transaction form
(frontend/components/forms.py, create_transaction_form) on submit. -/
structure FormTransaction where
  description : String
  amount : ℚ
  category : String
  ttype : String
  deriving DecidableEq, Repr

/-- Python str.strip on the character list of a string: drop leading
and trailing whitespace. -/
def pyStrip (s : String) : String :=
  String.mk
    (((s.data.dropWhile Char.isWhitespace).reverse.dropWhile
        Char.isWhitespace).reverse)

/-- Embedding of the submit branch of `create_transaction_form`: the
widget bound min_value keeps the entered amount at least 0.01, the
submit guard re-checks a non-blank stripped description and a positive
amount, and the stored amount is negated when the type is Expense. -/
def create_transaction_form (ttype : String) (description : String)
    (amount : ℚ) : Option FormTransaction :=
  if pyStrip description ≠ "" ∧ amount > 0 then
    some { description := pyStrip description
           amount := if ttype == "Income" then amount else -amount
           category := ""
           ttype := ttype }
  else none

/-- Hex colour chosen by `create_budget_progress_card`
(frontend/components/cards.py) from the percentage used: green up to
50, yellow up to 80, red beyond. -/
def progress_color (percentage : ℚ) : String :=
  if percentage ≤ 50 then "#28a745"
  else if percentage ≤ 80 then "#ffc107"
  else "#dc3545"

/-- Percentage computed by `create_budget_progress_card`: spent over
budget times 100 when the budget limit is positive, 0 otherwise (the
guard against dividing by zero). -/
def card_percentage (spent budget : ℚ) : ℚ :=
  if budget > 0 then spent / budget * 100 else 0

/-- Data rendered by one budget progress card. -/
structure BudgetCard where
  category : String
  spent : ℚ
  budget : ℚ
  percentage : ℚ
  color : String
  remaining : ℚ
  deriving DecidableEq, Repr

/-- Embedding of `create_budget_progress_card`: the values the card
computes from its category, spent and budget arguments. -/
def create_budget_progress_card (category : String) (spent budget : ℚ) :
    BudgetCard :=
  { category := category, spent := spent, budget := budget
    percentage := card_percentage spent budget
    color := progress_color (card_percentage spent budget)
    remaining := budget - spent }

/-- Lookup in the expense_by_category dict built by
frontend/pages/3_Budget.py from the category breakdown, with the
Python .get default of 0 for a category with no expense row. -/
def expense_by_category_get (eby : List (String × ℚ)) (cat : String) : ℚ :=
  match eby.find? (fun p => p.1 == cat) with
  | some p => p.2
  | none => 0

/-- Budget cards rendered by the loop of 3_Budget.py: one card per
budget record, in store order, its spent amount looked up from the
month's expense-by-category dict. -/
def budgetPageCards (budgets : List Budget) (eby : List (String × ℚ)) :
    List BudgetCard :=
  budgets.map (fun b =>
    create_budget_progress_card b.category (expense_by_category_get eby b.category) b.amount)

/-- Rollup total_budget of 3_Budget.py: the sum of the budgets'
amounts. -/
def budgetPageTotalBudget (budgets : List Budget) : ℚ :=
  (budgets.map (fun b => b.amount)).sum

/-- Rollup total_spent of 3_Budget.py: the sum of the values of the
expense_by_category dict, i.e. over every expense category of the
month whether or not a budget is declared for it. -/
def budgetPageTotalSpent (eby : List (String × ℚ)) : ℚ :=
  (eby.map (fun p => p.2)).sum

/-- Rollup remaining of 3_Budget.py: total budget minus total spent. -/
def budgetPageRemaining (budgets : List Budget)
    (eby : List (String × ℚ)) : ℚ :=
  budgetPageTotalBudget budgets - budgetPageTotalSpent eby

/-- Progress fraction of the summary bar of 3_Budget.py: spent over
budget capped at 1 when the total budget is positive, 0 otherwise. -/
def budgetPageProgress (total_spent total_budget : ℚ) : ℚ :=
  if total_budget > 0 then min (total_spent / total_budget) 1 else 0

/-- Name of the tier a card colour belongs to, identifying the green,
yellow and red colours of `progress_color` with the lowest (ok), middle
(warning) and highest (over) alert tiers. -/
def colorTier (c : String) : String :=
  if c == "#28a745" then "ok"
  else if c == "#ffc107" then "warning"
  else "over"

/-- Modelled from the spec: the claimed 3-tier status classification
with thresholds 70 and 90 (ok up to 70, warning up to 90, over beyond),
stated for comparison with the classification the code implements. -/
def spec_status (p : ℚ) : String :=
  if p ≤ 70 then "ok"
  else if p ≤ 90 then "warning"
  else "over"

/-- Default transaction value used with List.getD when stating
positional properties of the store. -/
def defaultTransaction : Transaction :=
  ⟨0, 0, "", none, "", ⟨0, 0, 0⟩, 0⟩

/-- Default budget value used with List.getD when stating positional
properties of the budget collection. -/
def defaultBudget : Budget :=
  ⟨0, "", 0, "", 0⟩

/-!  Helper lemmas.  -/

/-- Reading the crud summary dict at a key with default 0 gives the sum
of the amounts of the matching rows of that type, whether or not the
key is present. -/
theorem getD_get_monthly_summary (db : List Transaction) (uid : Nat)
    (month : String) (ty : String) :
    (get_monthly_summary db uid month ty).getD 0
      = sumAmounts ((monthlyRows db uid month).filter
          (fun t => t.transaction_type == ty)) := by
  unfold get_monthly_summary
  by_cases h : ((monthlyRows db uid month).filter
      (fun t => t.transaction_type == ty)).isEmpty
  · simp only [h, if_true, Option.getD_none]
    rw [List.isEmpty_iff.mp h]
    simp [sumAmounts]
  · simp [h]

/-- Filtering an owner's rows by month and then by type is filtering by
type and month when every row already belongs to the owner. -/
theorem monthlyRows_filter_type (ts : List Transaction) (uid : Nat)
    (month : String) (ty : String) (h : ∀ t ∈ ts, t.user_id = uid) :
    (monthlyRows ts uid month).filter (fun t => t.transaction_type == ty)
      = ts.filter
          (fun t => t.transaction_type == ty && strftimeYM t.date == month) := by
  induction ts with
  | nil => rfl
  | cons t rest ih =>
      have ht : t.user_id = uid := h t (List.mem_cons_self _ _)
      have ih' := ih (fun x hx => h x (List.mem_cons_of_mem _ hx))
      simp only [monthlyRows, List.filter_cons] at ih' ⊢
      by_cases h1 : strftimeYM t.date == month
      · by_cases h2 : t.transaction_type == ty <;>
          simp [ht, h1, h2, ih']
      · simp only [Bool.and_eq_true, beq_iff_eq] at h1 ⊢
        simp [ht, h1, ih']

/-- C1: over any single owner's transactions, the monthly-summary
endpoint's balance equals the sum of the amounts of the owner's income
transactions of the requested period minus the sum of the amounts of
the owner's expense transactions of that period. -/
theorem monthly_summary_balance_identity (ts : List Transaction)
    (uid : Nat) (month : String) (h : ∀ t ∈ ts, t.user_id = uid) :
    (monthly_summary_endpoint ts uid month).balance
      = sumAmounts (ts.filter (fun t =>
          t.transaction_type == "income" && strftimeYM t.date == month))
        - sumAmounts (ts.filter (fun t =>
            t.transaction_type == "expense" && strftimeYM t.date == month)) := by
  simp only [monthly_summary_endpoint, getD_get_monthly_summary,
    monthlyRows_filter_type ts uid month _ h]

/-- C1 witness: the balance identity at a concrete two-transaction
store of one owner. -/
theorem monthly_summary_balance_identity_witness :
    (monthly_summary_endpoint
        [⟨1, 30, "Salary", none, "income", ⟨2024, 1, 5⟩, 1⟩,
         ⟨2, 10, "Food", none, "expense", ⟨2024, 1, 6⟩, 1⟩] 1 "2024-01").balance
      = sumAmounts (([⟨1, 30, "Salary", none, "income", ⟨2024, 1, 5⟩, 1⟩,
          ⟨2, 10, "Food", none, "expense", ⟨2024, 1, 6⟩, 1⟩] :
            List Transaction).filter (fun t =>
          t.transaction_type == "income" && strftimeYM t.date == "2024-01"))
        - sumAmounts (([⟨1, 30, "Salary", none, "income", ⟨2024, 1, 5⟩, 1⟩,
            ⟨2, 10, "Food", none, "expense", ⟨2024, 1, 6⟩, 1⟩] :
              List Transaction).filter (fun t =>
            t.transaction_type == "expense" && strftimeYM t.date == "2024-01")) :=
  monthly_summary_balance_identity _ 1 "2024-01" (by decide)

/-- C7: the monthly-summary endpoint on an empty store returns the
all-zero summary for any owner and any requested period, not an error
value. -/
theorem compute_summary_empty (uid : Nat) (month : String) :
    monthly_summary_endpoint [] uid month
      = { month := month, income := 0, expense := 0, balance := 0 } := by
  norm_num [monthly_summary_endpoint, get_monthly_summary, monthlyRows]

/-- C5: a transaction whose derived YYYY-MM key differs from the
requested period contributes nothing to that period's monthly summary
nor to its category breakdown. -/
theorem period_isolation (db : List Transaction) (t : Transaction)
    (uid : Nat) (month : String) (hmonth : strftimeYM t.date ≠ month) :
    monthly_summary_endpoint (t :: db) uid month
        = monthly_summary_endpoint db uid month ∧
      get_category_breakdown (t :: db) uid (some month)
        = get_category_breakdown db uid (some month) := by
  have hb : (strftimeYM t.date == month) = false :=
    beq_eq_false_iff_ne.mpr hmonth
  have h1 : monthlyRows (t :: db) uid month = monthlyRows db uid month := by
    simp [monthlyRows, List.filter_cons, hb]
  have h2 : breakdownRows (t :: db) uid (some month)
      = breakdownRows db uid (some month) := by
    simp [breakdownRows, List.filter_cons, hb]
  constructor
  · simp only [monthly_summary_endpoint, get_monthly_summary, h1]
  · simp only [get_category_breakdown, h2]

/-- C5 witness: with a 100 expense on 2024-01-15 and a 50 expense on
2024-02-01, both in category Food, the breakdown for 2024-01 ignores
the February transaction and is exactly Food with total 100. -/
theorem period_isolation_witness :
    strftimeYM ⟨2024, 2, 1⟩ ≠ "2024-01" ∧
      get_category_breakdown
          [⟨2, 50, "Food", none, "expense", ⟨2024, 2, 1⟩, 1⟩,
           ⟨1, 100, "Food", none, "expense", ⟨2024, 1, 15⟩, 1⟩] 1
          (some "2024-01")
        = get_category_breakdown
            [⟨1, 100, "Food", none, "expense", ⟨2024, 1, 15⟩, 1⟩] 1
            (some "2024-01") ∧
      get_category_breakdown
          [⟨1, 100, "Food", none, "expense", ⟨2024, 1, 15⟩, 1⟩] 1
          (some "2024-01")
        = [("Food", 100)] :=
  ⟨by decide,
   (period_isolation _ _ 1 "2024-01" (by decide)).2,
   by norm_num +decide [get_category_breakdown, breakdownRows, sumAmounts,
     firstOccurrences, List.filter_cons, List.filter_nil, List.map_cons,
     List.map_nil, List.sum_cons, List.sum_nil,
     show strftimeYM ⟨2024, 1, 15⟩ = "2024-01" from rfl]⟩

/-- C10: the transactions listing returns at most `limit` rows, and
with the default arguments an owner with more than 100 stored
transactions receives exactly 100 of them, strictly fewer than they
own. -/
theorem get_transactions_truncates (db : List Transaction)
    (uid skip limit : Nat) :
    (get_transactions db uid skip limit).length ≤ limit ∧
      (100 < (db.filter (fun t => t.user_id == uid)).length →
        (get_transactions db uid).length = 100 ∧
          (get_transactions db uid).length
            < (db.filter (fun t => t.user_id == uid)).length) := by
  constructor
  · simp only [get_transactions, List.length_take]
    exact Nat.min_le_left _ _
  · intro h
    simp only [get_transactions, List.length_take, List.drop_zero]
    omega

/-- C10 witness: an owner with 101 stored transactions gets exactly 100
from the default listing. -/
theorem get_transactions_truncates_witness :
    100 < ((List.replicate 101
        (⟨1, 5, "Food", none, "expense", ⟨2024, 1, 1⟩, 1⟩ :
          Transaction)).filter (fun t => t.user_id == 1)).length ∧
      (get_transactions (List.replicate 101
          (⟨1, 5, "Food", none, "expense", ⟨2024, 1, 1⟩, 1⟩ :
            Transaction)) 1).length = 100 :=
  ⟨by decide,
   ((get_transactions_truncates (List.replicate 101
       ⟨1, 5, "Food", none, "expense", ⟨2024, 1, 1⟩, 1⟩) 1 0 100).2
     (by decide)).1⟩

/-- C2 counterexample: at percent_used exactly 70 the claim (and the
spec-modelled classification) gives the lowest tier ok, but the card
code colours it yellow, the middle (warning) tier: the claimed 70/90
boundaries do not match the code. -/
theorem budget_status_boundary_counterexample :
    card_percentage 70 100 = 70 ∧
      spec_status (card_percentage 70 100) = "ok" ∧
      colorTier (progress_color (card_percentage 70 100)) ≠ "ok" ∧
      colorTier (progress_color (card_percentage 70 100)) = "warning" := by
  norm_num +decide [card_percentage, spec_status, progress_color, colorTier]

/-- C2 amended: the budget card's classification is 3-tier with
hardcoded boundaries 50 and 80: the green (ok) tier exactly when
percent_used is at most 50, the yellow (warning) tier exactly when it
is above 50 and at most 80, and the red (over) tier exactly when it is
above 80; percent_used exactly 70 therefore falls in the middle tier. -/
theorem progress_color_tiers (p : ℚ) :
    (colorTier (progress_color p) = "ok" ↔ p ≤ 50) ∧
      (colorTier (progress_color p) = "warning" ↔ 50 < p ∧ p ≤ 80) ∧
      (colorTier (progress_color p) = "over" ↔ 80 < p) := by
  unfold progress_color
  split_ifs with h1 h2
  · have e : colorTier "#28a745" = "ok" := by decide
    rw [e]
    refine ⟨by simp [h1], ?_, ?_⟩
    · simp +decide
      intro ha
      linarith
    · simp +decide
      linarith
  · have e : colorTier "#ffc107" = "warning" := by decide
    rw [e]
    have h1' : 50 < p := not_le.mp h1
    refine ⟨?_, by simp [h1', h2], ?_⟩
    · simp +decide
      linarith
    · simp +decide
      linarith
  · have e : colorTier "#dc3545" = "over" := by decide
    rw [e]
    have h2' : 80 < p := not_le.mp h2
    refine ⟨?_, ?_, by simp [h2']⟩
    · simp +decide
      linarith
    · simp +decide
      intro ha
      linarith

/-- C4: when the budget limit is zero or negative, the card computes
percent_used 0 with the lowest (ok) tier instead of raising on the
division, and the budget page's summary progress bar likewise shows 0. -/
theorem budget_zero_limit_safe (cat : String) (spent budget : ℚ)
    (h : budget ≤ 0) :
    card_percentage spent budget = 0 ∧
      (create_budget_progress_card cat spent budget).percentage = 0 ∧
      colorTier (create_budget_progress_card cat spent budget).color = "ok" ∧
      budgetPageProgress spent budget = 0 := by
  have hb : ¬ budget > 0 := not_lt.mpr h
  simp +decide [card_percentage, create_budget_progress_card,
    progress_color, colorTier, budgetPageProgress, hb]

/-- C4 witness: a budget with limit 0 and spending 5 yields percent 0
and the ok tier. -/
theorem budget_zero_limit_safe_witness :
    (0 : ℚ) ≤ 0 ∧
      card_percentage 5 0 = 0 ∧
      (create_budget_progress_card "Food" 5 0).percentage = 0 ∧
      colorTier (create_budget_progress_card "Food" 5 0).color = "ok" ∧
      budgetPageProgress 5 0 = 0 :=
  ⟨le_refl 0, budget_zero_limit_safe "Food" 5 0 (le_refl 0)⟩

/-- Membership in the first-occurrence list is membership in the
original list. -/
theorem mem_firstOccurrences (l : List String) (a : String) :
    a ∈ firstOccurrences l ↔ a ∈ l := by
  induction l using firstOccurrences.induct with
  | case1 => simp [firstOccurrences]
  | case2 c rest ih =>
      rw [firstOccurrences]
      simp only [List.mem_cons, ih, List.mem_filter]
      constructor
      · rintro (rfl | ⟨hmem, -⟩)
        · exact Or.inl rfl
        · exact Or.inr hmem
      · rintro (rfl | hmem)
        · exact Or.inl rfl
        · by_cases hac : a = c
          · exact Or.inl hac
          · exact Or.inr ⟨hmem, by simp [hac]⟩

/-- The first-occurrence list has no duplicates: the group keys of a
breakdown are pairwise distinct. -/
theorem nodup_firstOccurrences (l : List String) :
    (firstOccurrences l).Nodup := by
  induction l using firstOccurrences.induct with
  | case1 => simp [firstOccurrences]
  | case2 c rest ih =>
      rw [firstOccurrences]
      refine List.nodup_cons.mpr ⟨?_, ih⟩
      intro hc
      have := (mem_firstOccurrences _ _).mp hc
      simp at this

/-- Summing a function over a duplicate-free list where a single
element carries an extra addend splits the addend off the sum. -/
theorem sum_map_if_single (cats : List String) (hnd : cats.Nodup)
    (c : String) (hc : c ∈ cats) (a : ℚ) (g : String → ℚ) :
    (cats.map (fun x => if c = x then a + g x else g x)).sum
      = a + (cats.map g).sum := by
  induction cats with
  | nil => cases hc
  | cons d rest ih =>
      rcases List.mem_cons.mp hc with rfl | hmem
      · have hcnot : c ∉ rest := (List.nodup_cons.mp hnd).1
        simp only [List.map_cons, List.sum_cons, if_pos rfl]
        have hrw : rest.map (fun x => if c = x then a + g x else g x)
            = rest.map g := by
          apply List.map_congr_left
          intro x hx
          rw [if_neg]
          intro h
          exact hcnot (h ▸ hx)
        rw [hrw]
        simp only [if_true]
        ring
      · have hdnot : ¬ c = d := by
          rintro rfl
          exact (List.nodup_cons.mp hnd).1 hmem
        simp only [List.map_cons, List.sum_cons, if_neg hdnot]
        rw [ih (List.nodup_cons.mp hnd).2 hmem]
        ring

/-- Partition identity of GROUP BY: summing the per-group sums over a
duplicate-free list of keys covering every row gives the sum over all
rows. -/
theorem sum_group_by (rows : List Transaction) (cats : List String)
    (hnd : cats.Nodup) (hmem : ∀ t ∈ rows, t.category ∈ cats) :
    (cats.map (fun c =>
        sumAmounts (rows.filter (fun t => t.category == c)))).sum
      = sumAmounts rows := by
  induction rows with
  | nil =>
      have hmap : cats.map (fun c =>
          sumAmounts (List.filter (fun t => t.category == c) [])) =
          cats.map (fun _ => (0 : ℚ)) := rfl
      rw [hmap]
      simp [sumAmounts]
  | cons t rest ih =>
      have htc := hmem t (List.mem_cons_self _ _)
      have hrest : ∀ x ∈ rest, x.category ∈ cats :=
        fun x hx => hmem x (List.mem_cons_of_mem _ hx)
      have key : ∀ c, sumAmounts ((t :: rest).filter (fun x => x.category == c))
          = if t.category = c then
              t.amount + sumAmounts (rest.filter (fun x => x.category == c))
            else sumAmounts (rest.filter (fun x => x.category == c)) := by
        intro c
        by_cases h : t.category = c
        · simp [List.filter_cons, h, sumAmounts]
        · simp [List.filter_cons, beq_eq_false_iff_ne.mpr h, h]
      calc (cats.map (fun c =>
              sumAmounts ((t :: rest).filter (fun x => x.category == c)))).sum
          = (cats.map (fun c =>
              if t.category = c then
                t.amount + sumAmounts (rest.filter (fun x => x.category == c))
              else sumAmounts (rest.filter (fun x => x.category == c)))).sum := by
            exact congrArg _ (List.map_congr_left (fun c _ => key c))
        _ = t.amount + (cats.map (fun c =>
              sumAmounts (rest.filter (fun x => x.category == c)))).sum :=
            sum_map_if_single cats hnd t.category htc t.amount _
        _ = sumAmounts (t :: rest) := by
            rw [ih hrest]
            simp [sumAmounts]

/-- Summing the values of the category breakdown gives the total of
all matching expense rows. -/
theorem breakdown_values_total (db : List Transaction) (uid : Nat)
    (m : Option String) :
    budgetPageTotalSpent (get_category_breakdown db uid m)
      = sumAmounts (breakdownRows db uid m) := by
  unfold budgetPageTotalSpent get_category_breakdown
  rw [List.map_map]
  have hcomp : ((fun p : String × ℚ => p.2) ∘ (fun c =>
      (c, sumAmounts ((breakdownRows db uid m).filter
        (fun t => t.category == c)))))
      = fun c => sumAmounts ((breakdownRows db uid m).filter
        (fun t => t.category == c)) := rfl
  rw [hcomp]
  exact sum_group_by _ _ (nodup_firstOccurrences _)
    (fun t ht => (mem_firstOccurrences _ _).mpr
      (List.mem_map_of_mem _ ht))

/-- C3 counterexample: with a single budget for Food of 100 and January
expenses of 50 on Food and 30 on Travel, the page's total_spent is 80
(every expense category of the month) while the sum of the per-budget
spent values is 50: spending in the unbudgeted Travel category does
contribute to total_spent, refuting the claim. -/
theorem budget_rollup_counterexample :
    budgetPageTotalSpent (get_category_breakdown
        [⟨1, 50, "Food", none, "expense", ⟨2024, 1, 10⟩, 1⟩,
         ⟨2, 30, "Travel", none, "expense", ⟨2024, 1, 12⟩, 1⟩] 1
        (some "2024-01"))
      ≠ ((budgetPageCards [⟨1, "Food", 100, "2024-01", 1⟩]
          (get_category_breakdown
            [⟨1, 50, "Food", none, "expense", ⟨2024, 1, 10⟩, 1⟩,
             ⟨2, 30, "Travel", none, "expense", ⟨2024, 1, 12⟩, 1⟩] 1
            (some "2024-01"))).map (fun c => c.spent)).sum := by
  norm_num +decide [budgetPageTotalSpent, budgetPageCards,
    get_category_breakdown, breakdownRows, sumAmounts, firstOccurrences,
    expense_by_category_get, create_budget_progress_card,
    List.filter_cons, List.filter_nil, List.map_cons, List.map_nil,
    List.sum_cons, List.sum_nil, List.find?,
    show strftimeYM ⟨2024, 1, 10⟩ = "2024-01" from rfl,
    show strftimeYM ⟨2024, 1, 12⟩ = "2024-01" from rfl]

/-- C3 amended: the rollup's total_limit is the sum of the budgets'
amounts and total_remaining is total_limit minus total_spent, but
total_spent is the sum of the requested month's expense totals over all
categories with activity — equal to the total of every matching expense
transaction of the owner — whether or not a budget is declared for the
category, rather than the sum of the per-budget spent values. -/
theorem budget_rollup_amended (budgets : List Budget)
    (db : List Transaction) (uid : Nat) (m : String) :
    budgetPageTotalBudget budgets = (budgets.map (fun b => b.amount)).sum ∧
      budgetPageRemaining budgets (get_category_breakdown db uid (some m))
        = budgetPageTotalBudget budgets
          - budgetPageTotalSpent (get_category_breakdown db uid (some m)) ∧
      budgetPageTotalSpent (get_category_breakdown db uid (some m))
        = sumAmounts (db.filter (fun t =>
            t.user_id == uid && t.transaction_type == "expense"
              && strftimeYM t.date == m)) := by
  refine ⟨rfl, rfl, ?_⟩
  rw [breakdown_values_total]
  rfl

/-- C6 counterexample: the transaction form accepts an Expense of 100
and stores amount -100, so direction is carried by the sign of the
stored amount; schema validation accepts a transaction whose amount is
-5 (only the type string is checked), and with it in the store the
income total of the summary is negative. -/
theorem transaction_sign_counterexample :
    create_transaction_form "Expense" "Lunch" 100
        = some ⟨"Lunch", -100, "", "Expense"⟩ ∧
      (-100 : ℚ) < 0 ∧
      validate_type "income" = true ∧
      (monthly_summary_endpoint
          [⟨3, -5, "Salary", none, "income", ⟨2024, 1, 2⟩, 1⟩] 1
          "2024-01").income < 0 := by
  refine ⟨?_, by norm_num, by decide, ?_⟩
  · norm_num +decide [create_transaction_form,
      show pyStrip "Lunch" = "Lunch" from rfl]
  · norm_num +decide [monthly_summary_endpoint, get_monthly_summary,
      monthlyRows, sumAmounts, List.filter_cons, List.filter_nil,
      List.map_cons, List.map_nil, List.sum_cons, List.sum_nil,
      show strftimeYM ⟨2024, 1, 2⟩ = "2024-01" from rfl]

/-- C6 amended: the form requires the entered amount to be strictly
positive, but encodes direction in the sign of the stored amount —
negating it for Expense — so the payload's amount is negative exactly
when the type is not Income; schema validation constrains
transaction_type to income or expense and places no constraint on the
sign of amount. -/
theorem transaction_form_amended :
    (∀ (ttype desc : String) (amount : ℚ) (p : FormTransaction),
        create_transaction_form ttype desc amount = some p →
          0 < amount ∧
            p.amount = (if ttype == "Income" then amount else -amount) ∧
            (ttype ≠ "Income" → p.amount < 0)) ∧
      (∀ v, validate_type v = true ↔ v = "income" ∨ v = "expense") := by
  constructor
  · intro ttype desc amount p hp
    unfold create_transaction_form at hp
    by_cases h : pyStrip desc ≠ "" ∧ amount > 0
    · rw [if_pos h] at hp
      obtain rfl := (Option.some_inj.mp hp).symm
      refine ⟨h.2, rfl, ?_⟩
      intro hne
      have : (ttype == "Income") = false := beq_eq_false_iff_ne.mpr hne
      simp only [this, Bool.false_eq_true, if_false]
      linarith [h.2]
    · rw [if_neg h] at hp
      cases hp
  · intro v
    unfold validate_type
    simp [Bool.or_eq_true, beq_iff_eq]

/-- C6 amended witness: the amended statement at the concrete accepted
Expense of 100. -/
theorem transaction_form_amended_witness :
    0 < (100 : ℚ) ∧
      (⟨"Lunch", -100, "", "Expense"⟩ : FormTransaction).amount
        = (if "Expense" == "Income" then (100 : ℚ) else -100) ∧
      ("Expense" ≠ "Income" →
        (⟨"Lunch", -100, "", "Expense"⟩ : FormTransaction).amount < 0) :=
  transaction_form_amended.1 "Expense" "Lunch" 100 _
    (by norm_num +decide [create_transaction_form,
      show pyStrip "Lunch" = "Lunch" from rfl])

/-- C8: even when the budget collection holds two budgets with the same
category and month, the page renders one progress card per budget
record, in order, each computed from its own record with no merging —
and, being a total function, without raising. -/
theorem duplicate_budgets_independent (budgets : List Budget)
    (eby : List (String × ℚ)) (i j : Nat) (hij : i < j)
    (hj : j < budgets.length)
    (hcat : (budgets.getD i defaultBudget).category
      = (budgets.getD j defaultBudget).category)
    (hmonth : (budgets.getD i defaultBudget).month
      = (budgets.getD j defaultBudget).month) :
    (budgetPageCards budgets eby).length = budgets.length ∧
      ∀ k, k < budgets.length →
        (budgetPageCards budgets eby).getD k
            (create_budget_progress_card "" 0 0)
          = create_budget_progress_card
              (budgets.getD k defaultBudget).category
              (expense_by_category_get eby
                (budgets.getD k defaultBudget).category)
              (budgets.getD k defaultBudget).amount := by
  constructor
  · simp [budgetPageCards]
  · intro k hk
    unfold budgetPageCards
    rw [List.getD_eq_getElem?_getD, List.getElem?_map,
      List.getElem?_eq_getElem hk, List.getD_eq_getElem _ _ hk]
    rfl

/-- C8 witness: two budgets for Food in 2024-01 yield two independent
cards. -/
theorem duplicate_budgets_independent_witness :
    (budgetPageCards
        [⟨1, "Food", 100, "2024-01", 1⟩, ⟨2, "Food", 80, "2024-01", 1⟩]
        [("Food", 50)]).length
      = ([⟨1, "Food", 100, "2024-01", 1⟩, ⟨2, "Food", 80, "2024-01", 1⟩] :
          List Budget).length ∧
    ∀ k, k < ([⟨1, "Food", 100, "2024-01", 1⟩,
        ⟨2, "Food", 80, "2024-01", 1⟩] : List Budget).length →
      (budgetPageCards
          [⟨1, "Food", 100, "2024-01", 1⟩, ⟨2, "Food", 80, "2024-01", 1⟩]
          [("Food", 50)]).getD k (create_budget_progress_card "" 0 0)
        = create_budget_progress_card
            (([⟨1, "Food", 100, "2024-01", 1⟩,
                ⟨2, "Food", 80, "2024-01", 1⟩] :
              List Budget).getD k defaultBudget).category
            (expense_by_category_get [("Food", 50)]
              (([⟨1, "Food", 100, "2024-01", 1⟩,
                  ⟨2, "Food", 80, "2024-01", 1⟩] :
                List Budget).getD k defaultBudget).category)
            (([⟨1, "Food", 100, "2024-01", 1⟩,
                ⟨2, "Food", 80, "2024-01", 1⟩] :
              List Budget).getD k defaultBudget).amount :=
  duplicate_budgets_independent
    [⟨1, "Food", 100, "2024-01", 1⟩, ⟨2, "Food", 80, "2024-01", 1⟩]
    [("Food", 50)] 0 1 (by decide) (by decide) (by decide) (by decide)

/-- Updating never changes the number of stored transactions. -/
theorem update_transaction_length (db : List Transaction) (tid uid : Nat)
    (u : TransactionUpdate) :
    (update_transaction db tid u uid).length = db.length := by
  induction db with
  | nil => rfl
  | cons t rest ih =>
      unfold update_transaction
      by_cases h : (t.id == tid && t.user_id == uid) = true
      · simp [h]
      · simp [h, ih]

/-- Each stored row is either untouched by an update or is the row
matching both ids, rewritten by the payload. -/
theorem update_transaction_getD (db : List Transaction) (tid uid : Nat)
    (u : TransactionUpdate) (i : Nat) (hi : i < db.length) :
    (update_transaction db tid u uid).getD i defaultTransaction
        = db.getD i defaultTransaction ∨
      ((db.getD i defaultTransaction).id = tid ∧
        (db.getD i defaultTransaction).user_id = uid ∧
        (update_transaction db tid u uid).getD i defaultTransaction
          = applyUpdate u (db.getD i defaultTransaction)) := by
  induction db generalizing i with
  | nil => exact absurd hi (Nat.not_lt_zero i)
  | cons t rest ih =>
      unfold update_transaction
      by_cases h : (t.id == tid && t.user_id == uid) = true
      · rw [if_pos h]
        cases i with
        | zero =>
            right
            simp only [Bool.and_eq_true, beq_iff_eq] at h
            simp [List.getD_cons_zero, h.1, h.2]
        | succ n =>
            left
            simp [List.getD_cons_succ]
      · rw [if_neg h]
        cases i with
        | zero =>
            left
            simp [List.getD_cons_zero]
        | succ n =>
            simp only [List.getD_cons_succ]
            exact ih n (Nat.lt_of_succ_lt_succ hi)

/-- At most the first matching row changes: any row after a changed row
is untouched. -/
theorem update_transaction_single (db : List Transaction) (tid uid : Nat)
    (u : TransactionUpdate) (i j : Nat) (hij : i < j) (hj : j < db.length)
    (hne : (update_transaction db tid u uid).getD i defaultTransaction
      ≠ db.getD i defaultTransaction) :
    (update_transaction db tid u uid).getD j defaultTransaction
      = db.getD j defaultTransaction := by
  induction db generalizing i j with
  | nil => exact absurd hj (Nat.not_lt_zero j)
  | cons t rest ih =>
      unfold update_transaction at hne ⊢
      by_cases h : (t.id == tid && t.user_id == uid) = true
      · rw [if_pos h] at hne ⊢
        cases j with
        | zero => omega
        | succ m => simp [List.getD_cons_succ]
      · rw [if_neg h] at hne ⊢
        cases i with
        | zero =>
            exact absurd (by simp [List.getD_cons_zero]) hne
        | succ n =>
            cases j with
            | zero => omega
            | succ m =>
                simp only [List.getD_cons_succ] at hne ⊢
                exact ih n m (Nat.lt_of_succ_lt_succ hij)
                  (Nat.lt_of_succ_lt_succ hj) hne

/-- When no stored transaction carries both the requested id and the
calling user's id, the store is returned unchanged. -/
theorem update_transaction_nomatch (db : List Transaction) (tid uid : Nat)
    (u : TransactionUpdate)
    (h : ∀ t ∈ db, ¬ (t.id = tid ∧ t.user_id = uid)) :
    update_transaction db tid u uid = db := by
  induction db with
  | nil => rfl
  | cons t rest ih =>
      unfold update_transaction
      have ht := h t (List.mem_cons_self _ _)
      have hcond : (t.id == tid && t.user_id == uid) = false := by
        by_cases h1 : t.id = tid
        · by_cases h2 : t.user_id = uid
          · exact absurd ⟨h1, h2⟩ ht
          · simp [beq_eq_false_iff_ne.mpr h2]
        · simp [beq_eq_false_iff_ne.mpr h1]
      simp [hcond, ih (fun x hx => h x (List.mem_cons_of_mem _ hx))]

/-- C9: an update leaves the store's length unchanged; every row is
either untouched or is the row matching both the given id and the
calling owner, rewritten by the payload; at most the first matching row
changes; when no row matches, the store is unchanged; and the rewrite
itself preserves id and user_id and only overwrites the fields present
in the payload. -/
theorem update_transaction_frame (db : List Transaction) (tid uid : Nat)
    (u : TransactionUpdate) :
    (update_transaction db tid u uid).length = db.length ∧
      (∀ i, i < db.length →
        (update_transaction db tid u uid).getD i defaultTransaction
            = db.getD i defaultTransaction ∨
          ((db.getD i defaultTransaction).id = tid ∧
            (db.getD i defaultTransaction).user_id = uid ∧
            (update_transaction db tid u uid).getD i defaultTransaction
              = applyUpdate u (db.getD i defaultTransaction))) ∧
      (∀ i j, i < j → j < db.length →
        (update_transaction db tid u uid).getD i defaultTransaction
            ≠ db.getD i defaultTransaction →
          (update_transaction db tid u uid).getD j defaultTransaction
            = db.getD j defaultTransaction) ∧
      ((∀ t ∈ db, ¬ (t.id = tid ∧ t.user_id = uid)) →
        update_transaction db tid u uid = db) ∧
      (∀ t : Transaction,
        (applyUpdate u t).id = t.id ∧ (applyUpdate u t).user_id = t.user_id) ∧
      (∀ t : Transaction,
        (u.amount = none → (applyUpdate u t).amount = t.amount) ∧
          (u.category = none → (applyUpdate u t).category = t.category) ∧
          (u.description = none →
            (applyUpdate u t).description = t.description) ∧
          (u.transaction_type = none →
            (applyUpdate u t).transaction_type = t.transaction_type) ∧
          (u.date = none → (applyUpdate u t).date = t.date)) := by
  refine ⟨update_transaction_length db tid uid u,
    fun i hi => update_transaction_getD db tid uid u i hi,
    fun i j hij hj hne =>
      update_transaction_single db tid uid u i j hij hj hne,
    fun h => update_transaction_nomatch db tid uid u h,
    fun t => ⟨rfl, rfl⟩,
    fun t => ⟨?_, ?_, ?_, ?_, ?_⟩⟩ <;>
  · intro h
    simp [applyUpdate, h]

/-- C9 witness: updating with an id that belongs to no stored row of
the owner leaves the store unchanged, and the payload rewrite keeps id
and user_id. -/
theorem update_transaction_frame_witness :
    update_transaction
        [⟨1, 5, "Food", none, "expense", ⟨2024, 1, 1⟩, 1⟩] 2
        ⟨some 9, none, none, none, none⟩ 1
      = [⟨1, 5, "Food", none, "expense", ⟨2024, 1, 1⟩, 1⟩] ∧
    (applyUpdate ⟨some 9, none, none, none, none⟩
        ⟨1, 5, "Food", none, "expense", ⟨2024, 1, 1⟩, 1⟩).id
      = (⟨1, 5, "Food", none, "expense", ⟨2024, 1, 1⟩, 1⟩ :
          Transaction).id :=
  ⟨(update_transaction_frame
      [⟨1, 5, "Food", none, "expense", ⟨2024, 1, 1⟩, 1⟩] 2 1
      ⟨some 9, none, none, none, none⟩).2.2.2.1 (by decide),
   ((update_transaction_frame
      [⟨1, 5, "Food", none, "expense", ⟨2024, 1, 1⟩, 1⟩] 2 1
      ⟨some 9, none, none, none, none⟩).2.2.2.2.1
      ⟨1, 5, "Food", none, "expense", ⟨2024, 1, 1⟩, 1⟩).1⟩

end MyMoney
